import Mathlib

/-!
Verification of the StealthPlane radar detection engine and pulse-lifecycle
simulator, shallowly embedded over the reals.

The repository carries two near-identical copies of the detection engine
(`src/lib/radarPhysics.ts` and a second physics module); both are embedded
below (`calculateRadarReturn` with detection threshold `0.5`,
`calculateRadarReturnSim` with threshold `0.3`).  The simulation page's
stealth-invariant effect and its radar-wave spawn/animate intervals are
embedded as explicit state-transition functions.
-/

open Filter Topology

namespace StealthPlane

/-- Geometry classes of `PlaneParameters.geometry` (`'stealth' | 'conventional' | 'fighter'`). -/
inductive Geometry where
  | stealth
  | conventional
  | fighter
  deriving DecidableEq

/-- A 3-component position vector (`position: {x, y, z}`), radar at the origin. -/
structure Vec3 where
  x : ℝ
  y : ℝ
  z : ℝ

/-- Structure `PlaneParameters` from the physics module. -/
structure PlaneParameters where
  radarCrossSection : ℝ
  absorptionCoefficient : ℝ
  geometry : Geometry
  angleToRadar : ℝ
  position : Vec3

/-- Structure `RadarParameters` from the physics module. -/
structure RadarParameters where
  frequency : ℝ
  power : ℝ
  range : ℝ
  sensitivity : ℝ

/-- Structure `RadarResult` from the physics module. -/
structure RadarResult where
  distance : ℝ
  angle : ℝ
  detectionProbability : ℝ
  signalStrength : ℝ
  effectiveRCS : ℝ
  isDetected : Bool

noncomputable section

/-- The `geometryFactors` lookup table of `calculateEffectiveRCS`. -/
def geometryFactor : Geometry → ℝ
  | .stealth => 0.001
  | .fighter => 5.0
  | .conventional => 25.0

/-- Function `calculateEffectiveRCS`: base RCS times geometry factor times angular factor. -/
def calculateEffectiveRCS (params : PlaneParameters) : ℝ :=
  let angleRad := params.angleToRadar * Real.pi / 180
  let baseFactor := geometryFactor params.geometry
  let angularFactor :=
    if params.geometry = Geometry.stealth then
      1 + 50 * Real.sin angleRad ^ 4
    else
      1 + 2 * Real.sin angleRad ^ 2
  params.radarCrossSection * baseFactor * angularFactor

/-- JavaScript `Math.atan2` on the reals (both arguments finite). -/
def atan2 (y x : ℝ) : ℝ :=
  if 0 < x then Real.arctan (y / x)
  else if x < 0 then
    (if 0 ≤ y then Real.arctan (y / x) + Real.pi else Real.arctan (y / x) - Real.pi)
  else
    (if 0 < y then Real.pi / 2 else if y < 0 then -(Real.pi / 2) else 0)

/-- The `distance` constant of `calculateRadarReturn`: Euclidean norm of the position. -/
def radarDistance (planeParams : PlaneParameters) : ℝ :=
  Real.sqrt (planeParams.position.x ^ 2 + planeParams.position.y ^ 2 +
    planeParams.position.z ^ 2)

/-- The `angle` constant of `calculateRadarReturn`: `atan2(x, z)` converted to degrees. -/
def radarAngle (planeParams : PlaneParameters) : ℝ :=
  atan2 planeParams.position.x planeParams.position.z * (180 / Real.pi)

/-- The `effectiveRCS` constant of `calculateRadarReturn`:
geometric RCS scaled by material absorption. -/
def engineEffectiveRCS (planeParams : PlaneParameters) : ℝ :=
  calculateEffectiveRCS planeParams * (1 - planeParams.absorptionCoefficient)

/-- The `Pr` constant of `calculateRadarReturn`: received power by the radar
equation with unity gain, wavelength `3e8 / (frequency × 1e9)`. -/
def receivedPower (planeParams : PlaneParameters) (radarParams : RadarParameters) : ℝ :=
  radarParams.power * 1000 * (3e8 / (radarParams.frequency * 1e9)) ^ 2 *
      engineEffectiveRCS planeParams /
    ((4 * Real.pi) ^ 3 * radarDistance planeParams ^ 4)

/-- The `signalStrength` constant of `calculateRadarReturn`: received power in dBm. -/
def signalStrengthDbm (planeParams : PlaneParameters) (radarParams : RadarParameters) : ℝ :=
  10 * Real.logb 10 (receivedPower planeParams radarParams * 1000)

/-- The `SNR` constant of `calculateRadarReturn`. -/
def radarSNR (planeParams : PlaneParameters) (radarParams : RadarParameters) : ℝ :=
  signalStrengthDbm planeParams radarParams - radarParams.sensitivity

/-- The `detectionProbability` if-chain of `calculateRadarReturn`, as a function of SNR. -/
def detectionProbabilityOfSNR (snr : ℝ) : ℝ :=
  if snr > 10 then 1.0
  else if snr > 0 then snr / 10
  else if snr > -10 then max 0 ((snr + 10) / 20)
  else 0

/-- Function `calculateRadarReturn` of the first engine copy (detection threshold `0.5`). -/
def calculateRadarReturn (planeParams : PlaneParameters)
    (radarParams : RadarParameters) : RadarResult :=
  if radarDistance planeParams > radarParams.range * 1000 then
    { distance := radarDistance planeParams
      angle := radarAngle planeParams
      detectionProbability := 0
      signalStrength := -200
      effectiveRCS := 0
      isDetected := false }
  else
    { distance := radarDistance planeParams
      angle := radarAngle planeParams
      detectionProbability := detectionProbabilityOfSNR (radarSNR planeParams radarParams)
      signalStrength := signalStrengthDbm planeParams radarParams
      effectiveRCS := engineEffectiveRCS planeParams
      isDetected :=
        decide (detectionProbabilityOfSNR (radarSNR planeParams radarParams) > 0.5) }

/-- Function `calculateRadarReturn` of the second physics module (detection threshold `0.3`,
"stealth is successful only when detection probability is below 30%").  Identical to
`calculateRadarReturn` except for the threshold in `isDetected`. -/
def calculateRadarReturnSim (planeParams : PlaneParameters)
    (radarParams : RadarParameters) : RadarResult :=
  if radarDistance planeParams > radarParams.range * 1000 then
    { distance := radarDistance planeParams
      angle := radarAngle planeParams
      detectionProbability := 0
      signalStrength := -200
      effectiveRCS := 0
      isDetected := false }
  else
    { distance := radarDistance planeParams
      angle := radarAngle planeParams
      detectionProbability := detectionProbabilityOfSNR (radarSNR planeParams radarParams)
      signalStrength := signalStrengthDbm planeParams radarParams
      effectiveRCS := engineEffectiveRCS planeParams
      isDetected :=
        decide (detectionProbabilityOfSNR (radarSNR planeParams radarParams) > 0.3) }

/-- The canonical optimal-stealth constant `OPTIMAL_STEALTH_PARAMS`
(all `PlaneParameters` fields except position). -/
structure StealthConstants where
  radarCrossSection : ℝ
  absorptionCoefficient : ℝ
  geometry : Geometry
  angleToRadar : ℝ

/-- Constant `OPTIMAL_STEALTH_PARAMS`: minimal RCS, maximal absorption, stealth geometry, zero angle. -/
def OPTIMAL_STEALTH_PARAMS : StealthConstants :=
  { radarCrossSection := 0.001
    absorptionCoefficient := 0.95
    geometry := Geometry.stealth
    angleToRadar := 0 }

/-- Function `isOptimalStealthConfig`: field-wise equality of the four tunable fields
with `OPTIMAL_STEALTH_PARAMS`. -/
def isOptimalStealthConfig (params : PlaneParameters) : Bool :=
  decide (params.radarCrossSection = OPTIMAL_STEALTH_PARAMS.radarCrossSection) &&
  decide (params.absorptionCoefficient = OPTIMAL_STEALTH_PARAMS.absorptionCoefficient) &&
  decide (params.geometry = OPTIMAL_STEALTH_PARAMS.geometry) &&
  decide (params.angleToRadar = OPTIMAL_STEALTH_PARAMS.angleToRadar)

/-- Function `getOptimalStealthParams`: spread `OPTIMAL_STEALTH_PARAMS` over the plane
configuration, preserving the current position. -/
def getOptimalStealthParams (currentPosition : Vec3) : PlaneParameters :=
  { radarCrossSection := OPTIMAL_STEALTH_PARAMS.radarCrossSection
    absorptionCoefficient := OPTIMAL_STEALTH_PARAMS.absorptionCoefficient
    geometry := OPTIMAL_STEALTH_PARAMS.geometry
    angleToRadar := OPTIMAL_STEALTH_PARAMS.angleToRadar
    position := currentPosition }

/-- One radar wave of the simulation page's `radarWaves` state
(`{ id: number; progress: number; distance: number }`). -/
structure RadarWave where
  id : ℤ
  progress : ℝ
  distance : ℝ

/-- The ids of the live waves. -/
def waveIds (waves : List RadarWave) : List ℤ :=
  waves.map RadarWave.id

/-- The 1000 ms spawn interval body: append one fresh wave with
`progress = 0`, `distance = 0` and the current clock value as id. -/
def emitWave (now : ℤ) (waves : List RadarWave) : List RadarWave :=
  waves ++ [{ id := now, progress := 0, distance := 0 }]

/-- The per-wave update of the 50 ms animation interval:
`progress + 0.02`, `distance + 1`. -/
def advanceWave (w : RadarWave) : RadarWave :=
  { id := w.id, progress := w.progress + 0.02, distance := w.distance + 1 }

/-- The 50 ms animation interval body: advance every wave, then keep only waves
with `progress < 1 && distance < 40`. -/
def animateWaves (waves : List RadarWave) : List RadarWave :=
  (waves.map advanceWave).filter fun w => decide (w.progress < 1 ∧ w.distance < 40)

/-- The page state relevant to the stealth invariant: the plane configuration
and the `stealthMode` flag. -/
structure SimState where
  planeParams : PlaneParameters
  stealthMode : Bool

/-- The stealth auto-deactivation effect of the simulation page: if
`stealthMode` is set and the configuration is not the optimal stealth
configuration, clear the flag; otherwise leave the state unchanged. -/
def enforceStealthInvariant (s : SimState) : SimState :=
  if s.stealthMode && ! isOptimalStealthConfig s.planeParams then
    { s with stealthMode := false }
  else s

end

/-! ### Helper lemmas about the engine branches -/

lemma calculateRadarReturn_gate (p : PlaneParameters) (r : RadarParameters)
    (h : radarDistance p > r.range * 1000) :
    calculateRadarReturn p r =
      { distance := radarDistance p, angle := radarAngle p, detectionProbability := 0,
        signalStrength := -200, effectiveRCS := 0, isDetected := false } := by
  rw [calculateRadarReturn, if_pos h]

lemma calculateRadarReturnSim_gate (p : PlaneParameters) (r : RadarParameters)
    (h : radarDistance p > r.range * 1000) :
    calculateRadarReturnSim p r =
      { distance := radarDistance p, angle := radarAngle p, detectionProbability := 0,
        signalStrength := -200, effectiveRCS := 0, isDetected := false } := by
  rw [calculateRadarReturnSim, if_pos h]

lemma calculateRadarReturn_inRange (p : PlaneParameters) (r : RadarParameters)
    (h : ¬ radarDistance p > r.range * 1000) :
    calculateRadarReturn p r =
      { distance := radarDistance p, angle := radarAngle p,
        detectionProbability := detectionProbabilityOfSNR (radarSNR p r),
        signalStrength := signalStrengthDbm p r,
        effectiveRCS := engineEffectiveRCS p,
        isDetected := decide (detectionProbabilityOfSNR (radarSNR p r) > 0.5) } := by
  rw [calculateRadarReturn, if_neg h]

lemma calculateRadarReturnSim_inRange (p : PlaneParameters) (r : RadarParameters)
    (h : ¬ radarDistance p > r.range * 1000) :
    calculateRadarReturnSim p r =
      { distance := radarDistance p, angle := radarAngle p,
        detectionProbability := detectionProbabilityOfSNR (radarSNR p r),
        signalStrength := signalStrengthDbm p r,
        effectiveRCS := engineEffectiveRCS p,
        isDetected := decide (detectionProbabilityOfSNR (radarSNR p r) > 0.3) } := by
  rw [calculateRadarReturnSim, if_neg h]

/-- The far plane used as a concrete input for the range-gate claims. -/
def farPlane : PlaneParameters :=
  { radarCrossSection := 1, absorptionCoefficient := 0.5, geometry := Geometry.fighter,
    angleToRadar := 45, position := { x := 0, y := 0, z := 200001 } }

lemma farPlane_distance : radarDistance farPlane = 200001 := by
  rw [radarDistance, show farPlane.position.x ^ 2 + farPlane.position.y ^ 2 +
    farPlane.position.z ^ 2 = (200001:ℝ) ^ 2 by norm_num [farPlane]]
  exact Real.sqrt_sq (by norm_num)

/-! ### C1: the range gate short-circuits to the fixed no-detection result -/

/-- C1: for every aircraft and radar configuration whose distance
`‖position‖` strictly exceeds `range × 1000`, both engine copies return the
fixed no-detection result `detectionProbability = 0`, `signalStrength = -200`,
`effectiveRCS = 0`, `isDetected = false`, regardless of all other parameters. -/
theorem rangeGate_no_detection (p : PlaneParameters) (r : RadarParameters)
    (h : radarDistance p > r.range * 1000) :
    (calculateRadarReturn p r).detectionProbability = 0 ∧
    (calculateRadarReturn p r).signalStrength = -200 ∧
    (calculateRadarReturn p r).effectiveRCS = 0 ∧
    (calculateRadarReturn p r).isDetected = false ∧
    (calculateRadarReturnSim p r).detectionProbability = 0 ∧
    (calculateRadarReturnSim p r).signalStrength = -200 ∧
    (calculateRadarReturnSim p r).effectiveRCS = 0 ∧
    (calculateRadarReturnSim p r).isDetected = false := by
  rw [calculateRadarReturn_gate p r h, calculateRadarReturnSim_gate p r h]
  exact ⟨rfl, rfl, rfl, rfl, rfl, rfl, rfl, rfl⟩

/-- Witness for C1 at a plane 200001 m away from a radar with 100 km range. -/
theorem rangeGate_no_detection_witness :
    (calculateRadarReturn farPlane
      { frequency := 10, power := 500, range := 100, sensitivity := -90 }).isDetected
      = false := by
  have h : radarDistance farPlane > (100:ℝ) * 1000 := by
    rw [farPlane_distance]; norm_num
  exact (rangeGate_no_detection farPlane _ h).2.2.2.1

/-! ### C9: the range gate preserves the geometric fields -/

/-- C9: even when the range gate fires, the result of both engine copies still
carries the true geometry of the target: the `distance` field is the Euclidean
norm of the position and the `angle` field is `atan2(x, z)` in degrees; only
the detection fields are replaced by sentinels. -/
theorem rangeGate_preserves_geometry (p : PlaneParameters) (r : RadarParameters)
    (h : radarDistance p > r.range * 1000) :
    (calculateRadarReturn p r).distance =
      Real.sqrt (p.position.x ^ 2 + p.position.y ^ 2 + p.position.z ^ 2) ∧
    (calculateRadarReturn p r).angle =
      atan2 p.position.x p.position.z * (180 / Real.pi) ∧
    (calculateRadarReturnSim p r).distance =
      Real.sqrt (p.position.x ^ 2 + p.position.y ^ 2 + p.position.z ^ 2) ∧
    (calculateRadarReturnSim p r).angle =
      atan2 p.position.x p.position.z * (180 / Real.pi) ∧
    (calculateRadarReturn p r).detectionProbability = 0 ∧
    (calculateRadarReturn p r).signalStrength = -200 ∧
    (calculateRadarReturn p r).effectiveRCS = 0 ∧
    (calculateRadarReturn p r).isDetected = false := by
  rw [calculateRadarReturn_gate p r h, calculateRadarReturnSim_gate p r h]
  exact ⟨rfl, rfl, rfl, rfl, rfl, rfl, rfl, rfl⟩

/-- Witness for C9 at the same far plane with a 150 km radar range. -/
theorem rangeGate_preserves_geometry_witness :
    (calculateRadarReturn farPlane
      { frequency := 9, power := 300, range := 150, sensitivity := -85 }).distance =
      Real.sqrt (farPlane.position.x ^ 2 + farPlane.position.y ^ 2 +
        farPlane.position.z ^ 2) := by
  have h : radarDistance farPlane > (150:ℝ) * 1000 := by
    rw [farPlane_distance]; norm_num
  exact (rangeGate_preserves_geometry farPlane _ h).1

/-! ### C6: entering stealth mode yields the canonical configuration -/

/-- C6: for every current position `p`, `getOptimalStealthParams p` replaces the
whole aircraft configuration with the canonical stealth constant except the
position field, which is preserved equal to `p`, and `isOptimalStealthConfig`
applied to the result returns `true`. -/
theorem enterStealth_canonical (p : Vec3) :
    (getOptimalStealthParams p).position = p ∧
    (getOptimalStealthParams p).radarCrossSection = 0.001 ∧
    (getOptimalStealthParams p).absorptionCoefficient = 0.95 ∧
    (getOptimalStealthParams p).geometry = Geometry.stealth ∧
    (getOptimalStealthParams p).angleToRadar = 0 ∧
    isOptimalStealthConfig (getOptimalStealthParams p) = true := by
  refine ⟨rfl, rfl, rfl, rfl, rfl, ?_⟩
  simp [isOptimalStealthConfig, getOptimalStealthParams]

/-! ### C10: isOptimalStealthConfig ignores the position -/

/-- C10: `isOptimalStealthConfig` is independent of position: two parameter
records agreeing on `radarCrossSection`, `absorptionCoefficient`, `geometry`
and `angleToRadar` get the same verdict, whatever their positions. -/
theorem isOptimal_position_independent (p q : PlaneParameters)
    (h1 : p.radarCrossSection = q.radarCrossSection)
    (h2 : p.absorptionCoefficient = q.absorptionCoefficient)
    (h3 : p.geometry = q.geometry)
    (h4 : p.angleToRadar = q.angleToRadar) :
    isOptimalStealthConfig p = isOptimalStealthConfig q := by
  rw [isOptimalStealthConfig, isOptimalStealthConfig, h1, h2, h3, h4]

/-- Witness for C10: two configurations differing only in position. -/
theorem isOptimal_position_independent_witness :
    isOptimalStealthConfig
      { radarCrossSection := 0.001, absorptionCoefficient := 0.95,
        geometry := Geometry.stealth, angleToRadar := 0,
        position := { x := 0, y := 0, z := 0 } } =
    isOptimalStealthConfig
      { radarCrossSection := 0.001, absorptionCoefficient := 0.95,
        geometry := Geometry.stealth, angleToRadar := 0,
        position := { x := 7, y := 8, z := 9 } } :=
  isOptimal_position_independent _ _ rfl rfl rfl rfl

/-! ### C7: effective cross-section is positive and π-periodic in angle -/

lemma sin_angle_add_180 (θ : ℝ) :
    Real.sin ((θ + 180) * Real.pi / 180) = - Real.sin (θ * Real.pi / 180) := by
  rw [show (θ + 180) * Real.pi / 180 = θ * Real.pi / 180 + Real.pi by ring,
    Real.sin_add_pi]

/-- C7: for every configuration with `radarCrossSection > 0`,
`calculateEffectiveRCS` is strictly positive; and it is periodic in
`angleToRadar` with period 180° (π radians): shifting the angle by 180°
while keeping every other field yields the same effective cross-section. -/
theorem effectiveRCS_pos_periodic (p : PlaneParameters) :
    (0 < p.radarCrossSection → 0 < calculateEffectiveRCS p) ∧
    calculateEffectiveRCS { p with angleToRadar := p.angleToRadar + 180 } =
      calculateEffectiveRCS p := by
  constructor
  · intro h
    have hs4 : (0:ℝ) ≤ Real.sin (p.angleToRadar * Real.pi / 180) ^ 4 := by positivity
    have hs2 : (0:ℝ) ≤ Real.sin (p.angleToRadar * Real.pi / 180) ^ 2 := by positivity
    have hgf : 0 < geometryFactor p.geometry := by
      cases p.geometry <;> norm_num [geometryFactor]
    simp only [calculateEffectiveRCS]
    by_cases hg : p.geometry = Geometry.stealth
    · rw [if_pos hg]
      exact mul_pos (mul_pos h hgf) (by nlinarith)
    · rw [if_neg hg]
      exact mul_pos (mul_pos h hgf) (by nlinarith)
  · simp only [calculateEffectiveRCS, sin_angle_add_180]
    by_cases hg : p.geometry = Geometry.stealth
    · rw [if_pos hg, if_pos hg]
      ring
    · rw [if_neg hg, if_neg hg]
      ring

/-- Witness for C7: positivity at a concrete stealth configuration. -/
theorem effectiveRCS_pos_periodic_witness :
    0 < calculateEffectiveRCS
      { radarCrossSection := 1, absorptionCoefficient := 0,
        geometry := Geometry.stealth, angleToRadar := 30,
        position := { x := 0, y := 0, z := 0 } } :=
  (effectiveRCS_pos_periodic _).1 (by norm_num)

/-! ### C3: the two engine copies differ only in the detection threshold -/

/-- C3: the two engine copies compute identical `distance`, `angle`,
`detectionProbability`, `signalStrength` and `effectiveRCS` for every input,
and their `isDetected` verdicts disagree exactly when the detection
probability lies in the interval `(0.3, 0.5]`. -/
theorem engine_copies_threshold_only (p : PlaneParameters) (r : RadarParameters) :
    (calculateRadarReturn p r).distance = (calculateRadarReturnSim p r).distance ∧
    (calculateRadarReturn p r).angle = (calculateRadarReturnSim p r).angle ∧
    (calculateRadarReturn p r).detectionProbability =
      (calculateRadarReturnSim p r).detectionProbability ∧
    (calculateRadarReturn p r).signalStrength =
      (calculateRadarReturnSim p r).signalStrength ∧
    (calculateRadarReturn p r).effectiveRCS = (calculateRadarReturnSim p r).effectiveRCS ∧
    ((calculateRadarReturn p r).isDetected ≠ (calculateRadarReturnSim p r).isDetected ↔
      0.3 < (calculateRadarReturn p r).detectionProbability ∧
        (calculateRadarReturn p r).detectionProbability ≤ 0.5) := by
  by_cases h : radarDistance p > r.range * 1000
  · rw [calculateRadarReturn_gate p r h, calculateRadarReturnSim_gate p r h]
    refine ⟨rfl, rfl, rfl, rfl, rfl, ?_⟩
    simp only [ne_eq, not_true_eq_false, false_iff, not_and]
    intro h3
    norm_num at h3
  · rw [calculateRadarReturn_inRange p r h, calculateRadarReturnSim_inRange p r h]
    refine ⟨rfl, rfl, rfl, rfl, rfl, ?_⟩
    constructor
    · intro hne
      by_cases h5 : detectionProbabilityOfSNR (radarSNR p r) > 0.5
      · exact absurd (by
          rw [decide_eq_true h5,
            decide_eq_true (show detectionProbabilityOfSNR (radarSNR p r) > 0.3 by linarith)])
          hne
      · by_cases h3 : detectionProbabilityOfSNR (radarSNR p r) > 0.3
        · exact ⟨h3, le_of_not_lt h5⟩
        · exact absurd (by rw [decide_eq_false h5, decide_eq_false h3]) hne
    · rintro ⟨h3, h5⟩
      rw [decide_eq_false (not_lt.mpr h5), decide_eq_true h3]
      simp

/-! ### C2: shape of the detection-probability function of SNR -/

lemma detProb_of_le_neg10 {x : ℝ} (h : x ≤ -10) : detectionProbabilityOfSNR x = 0 := by
  rw [detectionProbabilityOfSNR, if_neg (by linarith), if_neg (by linarith),
    if_neg (by linarith)]

lemma detProb_of_mid {x : ℝ} (h1 : -10 < x) (h2 : x ≤ 0) :
    detectionProbabilityOfSNR x = max 0 ((x + 10) / 20) := by
  rw [detectionProbabilityOfSNR, if_neg (by linarith), if_neg (by linarith), if_pos h1]

lemma detProb_of_ramp {x : ℝ} (h1 : 0 < x) (h2 : x ≤ 10) :
    detectionProbabilityOfSNR x = x / 10 := by
  rw [detectionProbabilityOfSNR, if_neg (by linarith), if_pos h1]

lemma detProb_of_gt10 {x : ℝ} (h : 10 < x) : detectionProbabilityOfSNR x = 1 := by
  rw [detectionProbabilityOfSNR, if_pos h]
  norm_num

lemma detProb_zero_val : detectionProbabilityOfSNR 0 = 1 / 2 := by
  rw [detProb_of_mid (by norm_num) le_rfl]
  norm_num

/-- Counterexample to C2 as stated: the detection-probability function is not
non-decreasing across the segment boundary `SNR = 0`: it takes the value `1/2`
at `SNR = 0` but only `1/10` at the larger `SNR = 1`. -/
theorem detProb_monotone_cex :
    (0:ℝ) ≤ 1 ∧ detectionProbabilityOfSNR 1 < detectionProbabilityOfSNR 0 := by
  rw [detProb_zero_val, detProb_of_ramp (by norm_num) (by norm_num)]
  norm_num

/-- C2 (amended): the detection-probability function of SNR is non-decreasing
within each of its four segments, is continuous at the segment boundaries
`SNR = -10` and `SNR = 10`, but is discontinuous at `SNR = 0`, where its value
`1/2` is not the limit of the values `SNR/10` taken just above `0`; hence it
fails to be non-decreasing across that boundary. -/
theorem detProb_segmentwise_monotone :
    (∀ x y : ℝ, x ≤ y → y ≤ -10 →
      detectionProbabilityOfSNR x ≤ detectionProbabilityOfSNR y) ∧
    (∀ x y : ℝ, -10 < x → x ≤ y → y ≤ 0 →
      detectionProbabilityOfSNR x ≤ detectionProbabilityOfSNR y) ∧
    (∀ x y : ℝ, 0 < x → x ≤ y → y ≤ 10 →
      detectionProbabilityOfSNR x ≤ detectionProbabilityOfSNR y) ∧
    (∀ x y : ℝ, 10 < x → x ≤ y →
      detectionProbabilityOfSNR x ≤ detectionProbabilityOfSNR y) ∧
    ContinuousAt detectionProbabilityOfSNR (-10) ∧
    ContinuousAt detectionProbabilityOfSNR 10 ∧
    ¬ ContinuousAt detectionProbabilityOfSNR 0 := by
  refine ⟨?_, ?_, ?_, ?_, ?_, ?_, ?_⟩
  · intro x y hxy hy
    rw [detProb_of_le_neg10 (hxy.trans hy), detProb_of_le_neg10 hy]
  · intro x y hx hxy hy
    rw [detProb_of_mid hx (hxy.trans hy), detProb_of_mid (lt_of_lt_of_le hx hxy) hy]
    exact max_le_max le_rfl (by linarith)
  · intro x y hx hxy hy
    rw [detProb_of_ramp hx (hxy.trans hy), detProb_of_ramp (lt_of_lt_of_le hx hxy) hy]
    linarith
  · intro x y hx hxy
    rw [detProb_of_gt10 hx, detProb_of_gt10 (lt_of_lt_of_le hx hxy)]
  · have hcg : ContinuousAt (fun x : ℝ => max 0 ((x + 10) / 20)) (-10) :=
      (continuous_const.max ((continuous_id.add continuous_const).div_const 20)).continuousAt
    apply hcg.congr
    filter_upwards [Iio_mem_nhds (show (-10:ℝ) < 0 by norm_num)] with x hx
    rcases le_or_lt x (-10) with hle | hgt
    · rw [detProb_of_le_neg10 hle, max_eq_left (by linarith)]
    · rw [detProb_of_mid hgt (le_of_lt hx)]
  · have hcg : ContinuousAt (fun x : ℝ => min 1 (x / 10)) 10 :=
      (continuous_const.min (continuous_id.div_const 10)).continuousAt
    apply hcg.congr
    filter_upwards [Ioi_mem_nhds (show (0:ℝ) < 10 by norm_num)] with x hx
    rcases le_or_lt x 10 with hle | hgt
    · rw [detProb_of_ramp hx hle, min_eq_right (by linarith)]
    · rw [detProb_of_gt10 hgt, min_eq_left (by linarith)]
  · intro hcont
    have h1 : Tendsto detectionProbabilityOfSNR (𝓝[>] (0:ℝ)) (𝓝 (1 / 2)) := by
      have := hcont.tendsto.mono_left (nhdsWithin_le_nhds (s := Set.Ioi (0:ℝ)))
      rwa [detProb_zero_val] at this
    have hev : detectionProbabilityOfSNR =ᶠ[𝓝[>] (0:ℝ)] (fun x => x / 10) := by
      filter_upwards [Ioo_mem_nhdsWithin_Ioi
        (show (0:ℝ) ∈ Set.Ico (0:ℝ) 10 by constructor <;> norm_num)] with x hx
      exact detProb_of_ramp hx.1 (le_of_lt hx.2)
    have h2 : Tendsto detectionProbabilityOfSNR (𝓝[>] (0:ℝ)) (𝓝 0) := by
      have hd : Tendsto (fun x : ℝ => x / 10) (𝓝[>] (0:ℝ)) (𝓝 0) := by
        have := ((continuous_id.div_const 10).tendsto (0:ℝ)).mono_left
          (nhdsWithin_le_nhds (s := Set.Ioi (0:ℝ)))
        simpa using this
      exact hd.congr' hev.symm
    have : (1 / 2 : ℝ) = 0 := tendsto_nhds_unique h1 h2
    norm_num at this

/-- Witness for C2 (amended): segmentwise monotonicity applied on the lowest
segment at `-20 ≤ -10`. -/
theorem detProb_segmentwise_monotone_witness :
    detectionProbabilityOfSNR (-20) ≤ detectionProbabilityOfSNR (-10) :=
  detProb_segmentwise_monotone.1 (-20) (-10) (by norm_num) (by norm_num)

/-! ### C4: the stealth-invariant enforcement step -/

lemma isOptimalStealthConfig_eq_true {p : PlaneParameters}
    (h : isOptimalStealthConfig p = true) :
    p.radarCrossSection = 0.001 ∧ p.absorptionCoefficient = 0.95 ∧
    p.geometry = Geometry.stealth ∧ p.angleToRadar = 0 := by
  rw [isOptimalStealthConfig] at h
  simp only [Bool.and_eq_true, decide_eq_true_eq] at h
  exact ⟨h.1.1.1, h.1.1.2, h.1.2, h.2⟩

/-- C4: after the enforcement step has run, `stealthMode = true` implies the
configuration's `radarCrossSection`, `absorptionCoefficient`, `geometry` and
`angleToRadar` equal the canonical optimal-stealth constant
`(0.001, 0.95, stealth, 0)`; and whenever the flag is set while the
configuration differs from that constant, the enforcement step clears it. -/
theorem stealth_invariant_enforced (s : SimState) :
    ((enforceStealthInvariant s).stealthMode = true →
      (enforceStealthInvariant s).planeParams.radarCrossSection = 0.001 ∧
      (enforceStealthInvariant s).planeParams.absorptionCoefficient = 0.95 ∧
      (enforceStealthInvariant s).planeParams.geometry = Geometry.stealth ∧
      (enforceStealthInvariant s).planeParams.angleToRadar = 0) ∧
    (s.stealthMode = true → isOptimalStealthConfig s.planeParams = false →
      (enforceStealthInvariant s).stealthMode = false) := by
  rw [enforceStealthInvariant]
  by_cases hc : (s.stealthMode && ! isOptimalStealthConfig s.planeParams) = true
  · rw [if_pos hc]
    refine ⟨fun hmode => absurd hmode (by simp), fun _ _ => rfl⟩
  · rw [if_neg hc]
    simp only [Bool.and_eq_true, Bool.not_eq_true', not_and] at hc
    constructor
    · intro hmode
      rcases hval : isOptimalStealthConfig s.planeParams
      · exact absurd hval (hc hmode)
      · exact isOptimalStealthConfig_eq_true hval
    · intro hmode hopt
      exact absurd hopt (hc hmode)

/-- The optimal configuration at a sample position, flag set. -/
def stealthOkState : SimState :=
  { planeParams :=
      { radarCrossSection := 0.001, absorptionCoefficient := 0.95,
        geometry := Geometry.stealth, angleToRadar := 0,
        position := { x := 1, y := 2, z := 3 } }
    stealthMode := true }

/-- A configuration mutated away from the optimal constant, flag still set. -/
def stealthBrokenState : SimState :=
  { planeParams :=
      { radarCrossSection := 0.5, absorptionCoefficient := 0.95,
        geometry := Geometry.stealth, angleToRadar := 0,
        position := { x := 1, y := 2, z := 3 } }
    stealthMode := true }

lemma stealthOkState_optimal : isOptimalStealthConfig stealthOkState.planeParams = true := by
  simp [isOptimalStealthConfig, stealthOkState, OPTIMAL_STEALTH_PARAMS]

lemma stealthBrokenState_not_optimal :
    isOptimalStealthConfig stealthBrokenState.planeParams = false := by
  have hne : ¬ ((0.5:ℝ) = 0.001) := by norm_num
  simp [isOptimalStealthConfig, stealthBrokenState, OPTIMAL_STEALTH_PARAMS, hne]

/-- Witness for C4: both parts of the enforcement theorem at concrete states —
a set flag over the optimal configuration survives and certifies the canonical
fields, and a set flag over a mutated configuration is cleared. -/
theorem stealth_invariant_enforced_witness :
    (enforceStealthInvariant stealthOkState).planeParams.radarCrossSection = 0.001 ∧
    (enforceStealthInvariant stealthBrokenState).stealthMode = false := by
  constructor
  · refine ((stealth_invariant_enforced stealthOkState).1 ?_).1
    rw [enforceStealthInvariant, stealthOkState_optimal]
    simp [stealthOkState]
  · exact (stealth_invariant_enforced stealthBrokenState).2 rfl
      stealthBrokenState_not_optimal

/-! ### C5: the pulse lifecycle -/

lemma animateWaves_iter_single (n : ℕ) (hn : n ≤ 39) :
    animateWaves^[n] (emitWave 0 []) =
      [{ id := 0, progress := (n:ℝ) * 0.02, distance := (n:ℝ) }] := by
  induction n with
  | zero =>
    simp only [Function.iterate_zero, id_eq, emitWave, List.nil_append]
    norm_num
  | succ k ih =>
    have hk : (k:ℝ) ≤ 38 := by
      have : k ≤ 38 := by omega
      exact_mod_cast this
    rw [Function.iterate_succ_apply', ih (by omega)]
    rw [animateWaves]
    simp only [List.map_cons, List.map_nil, advanceWave]
    rw [List.filter_cons_of_pos (by
      apply decide_eq_true
      constructor
      · nlinarith
      · push_cast
        linarith), List.filter_nil]
    have e1 : (k:ℝ) * 0.02 + 0.02 = ((k + 1 : ℕ):ℝ) * 0.02 := by push_cast; ring
    have e2 : (k:ℝ) + 1 = ((k + 1 : ℕ):ℝ) := by push_cast; ring
    rw [e1, e2]

/-- Counterexample to C5 as stated: the wave spawned with id `0` is retired by
the `distance < 40` cutoff before its progress ever reaches `1` — it is live
with progress `0.78` after 39 animation steps and gone after the 40th, so it is
not present "in every subsequent snapshot until its progress reaches at least
1". -/
theorem pulse_retired_before_progress_one :
    animateWaves^[39] (emitWave 0 []) =
      [{ id := 0, progress := (39:ℝ) * 0.02, distance := 39 }] ∧
    (39:ℝ) * 0.02 < 1 ∧
    animateWaves^[40] (emitWave 0 []) = [] := by
  have h39 := animateWaves_iter_single 39 le_rfl
  refine ⟨by simpa using h39, by norm_num, ?_⟩
  rw [show (40:ℕ) = 39 + 1 from rfl, Function.iterate_succ_apply', h39]
  rw [animateWaves]
  simp only [List.map_cons, List.map_nil, advanceWave]
  rw [List.filter_cons_of_neg (by
    simp only [decide_eq_true_eq]
    push_cast
    intro hcond
    linarith [hcond.2]), List.filter_nil]

/-- C5 (amended): a live wave whose advanced progress stays below `1` and whose
advanced distance stays below `40` survives an animation step (with its fields
advanced), spawning preserves all live waves, every wave surviving an animation
step has `progress < 1` and `distance < 40` (so a wave is retired as soon as
either cutoff is reached), an id absent from the live set never reappears
through animation nor through a spawn with a different id, and both steps
preserve distinctness of the live ids as long as each spawned id is fresh. -/
theorem pulse_lifecycle :
    (∀ (s : List RadarWave) (w : RadarWave), w ∈ s → w.progress + 0.02 < 1 →
      w.distance + 1 < 40 → advanceWave w ∈ animateWaves s) ∧
    (∀ (s : List RadarWave) (w : RadarWave) (t : ℤ), w ∈ s → w ∈ emitWave t s) ∧
    (∀ (s : List RadarWave) (w : RadarWave), w ∈ animateWaves s →
      w.progress < 1 ∧ w.distance < 40) ∧
    (∀ (s : List RadarWave) (i : ℤ), i ∉ waveIds s → i ∉ waveIds (animateWaves s)) ∧
    (∀ (s : List RadarWave) (i t : ℤ), i ∉ waveIds s → i ≠ t →
      i ∉ waveIds (emitWave t s)) ∧
    (∀ s : List RadarWave, (waveIds s).Nodup → (waveIds (animateWaves s)).Nodup) ∧
    (∀ (s : List RadarWave) (t : ℤ), (waveIds s).Nodup → t ∉ waveIds s →
      (waveIds (emitWave t s)).Nodup) := by
  have hids : ∀ s : List RadarWave, List.Sublist (waveIds (animateWaves s)) (waveIds s) := by
    intro s
    rw [waveIds, waveIds, animateWaves]
    have h1 : List.Sublist
        (((s.map advanceWave).filter
          fun w => decide (w.progress < 1 ∧ w.distance < 40)).map RadarWave.id)
        ((s.map advanceWave).map RadarWave.id) :=
      (List.filter_sublist _).map _
    rw [List.map_map] at h1
    exact h1
  refine ⟨?_, ?_, ?_, ?_, ?_, ?_, ?_⟩
  · intro s w hw hp hd
    rw [animateWaves]
    rw [List.mem_filter]
    refine ⟨List.mem_map_of_mem _ hw, decide_eq_true ⟨hp, hd⟩⟩
  · intro s w t hw
    rw [emitWave]
    exact List.mem_append_left _ hw
  · intro s w hw
    rw [animateWaves, List.mem_filter] at hw
    exact of_decide_eq_true hw.2
  · intro s i hi hmem
    exact hi ((hids s).mem hmem)
  · intro s i t hi hne hmem
    rw [waveIds, emitWave, List.map_append, List.mem_append] at hmem
    rcases hmem with hmem | hmem
    · exact hi hmem
    · simp only [List.map_cons, List.map_nil, List.mem_singleton] at hmem
      exact hne hmem
  · intro s hs
    exact hs.sublist (hids s)
  · intro s t hs ht
    rw [waveIds, emitWave, List.map_append]
    simp only [List.map_cons, List.map_nil]
    rw [List.nodup_append]
    refine ⟨hs, List.nodup_singleton _, ?_⟩
    intro a ha hb
    simp only [List.mem_singleton] at hb
    subst hb
    exact ht ha

/-- Witness for C5 (amended): a freshly spawned wave survives one animation
step with its progress advanced to `0.02`. -/
theorem pulse_lifecycle_witness :
    advanceWave { id := 5, progress := 0, distance := 0 } ∈
      animateWaves [{ id := 5, progress := 0, distance := 0 }] :=
  pulse_lifecycle.1 _ _ (List.mem_singleton_self _) (by norm_num) (by norm_num)

/-! ### C8: the concrete optimal-stealth scenario -/

/-- The aircraft configuration of the concrete scenario. -/
def scenarioPlane : PlaneParameters :=
  { radarCrossSection := 0.001, absorptionCoefficient := 0.95,
    geometry := Geometry.stealth, angleToRadar := 0,
    position := { x := 10, y := 8, z := 15 } }

/-- The radar configuration of the concrete scenario. -/
def scenarioRadar : RadarParameters :=
  { frequency := 10, power := 500, range := 100, sensitivity := -90 }

lemma scenario_distance : radarDistance scenarioPlane = Real.sqrt 389 := by
  rw [radarDistance, show scenarioPlane.position.x ^ 2 + scenarioPlane.position.y ^ 2 +
    scenarioPlane.position.z ^ 2 = (389:ℝ) by norm_num [scenarioPlane]]

lemma scenario_distance_lt : radarDistance scenarioPlane < 20 := by
  rw [scenario_distance, Real.sqrt_lt' (by norm_num : (0:ℝ) < 20)]
  norm_num

lemma scenario_in_range : ¬ radarDistance scenarioPlane > scenarioRadar.range * 1000 := by
  have h20 := scenario_distance_lt
  have : scenarioRadar.range = 100 := rfl
  rw [this]
  push_neg
  linarith

lemma scenario_effectiveRCS : engineEffectiveRCS scenarioPlane = 5e-8 := by
  rw [engineEffectiveRCS]
  have hrcs : calculateEffectiveRCS scenarioPlane = 1e-6 := by
    simp only [calculateEffectiveRCS, scenarioPlane, geometryFactor, if_true]
    norm_num [Real.sin_zero]
  rw [hrcs]
  norm_num [scenarioPlane]

lemma scenario_distance_pow : radarDistance scenarioPlane ^ 4 = 151321 := by
  rw [scenario_distance, show (Real.sqrt 389) ^ 4 = ((Real.sqrt 389) ^ 2) ^ 2 by ring,
    Real.sq_sqrt (by norm_num : (0:ℝ) ≤ 389)]
  norm_num

lemma scenario_receivedPower :
    receivedPower scenarioPlane scenarioRadar =
      2.25e-5 / ((4 * Real.pi) ^ 3 * 151321) := by
  rw [receivedPower, scenario_effectiveRCS, scenario_distance_pow]
  norm_num [scenarioRadar]

lemma scenario_pi_cubed : (27:ℝ) < Real.pi ^ 3 := by
  have h := Real.pi_gt_three
  nlinarith [h, sq_nonneg (Real.pi - 3), sq_nonneg (Real.pi + 3)]

lemma scenario_receivedPower_pos : 0 < receivedPower scenarioPlane scenarioRadar := by
  rw [scenario_receivedPower]
  positivity

lemma scenario_receivedPower_small :
    receivedPower scenarioPlane scenarioRadar * 1000 ≤ 1e-10 := by
  rw [scenario_receivedPower]
  have hden_pos : (0:ℝ) < (4 * Real.pi) ^ 3 * 151321 := by positivity
  rw [div_mul_eq_mul_div, div_le_iff₀ hden_pos]
  have hden_ge : (2.25e8 : ℝ) ≤ (4 * Real.pi) ^ 3 * 151321 := by
    rw [show (4 * Real.pi) ^ 3 * 151321 = 64 * 151321 * Real.pi ^ 3 by ring]
    linarith [scenario_pi_cubed]
  linarith

lemma scenario_snr : radarSNR scenarioPlane scenarioRadar ≤ -10 := by
  have hpos : 0 < receivedPower scenarioPlane scenarioRadar * 1000 := by
    have := scenario_receivedPower_pos
    linarith
  have hlog : Real.logb 10 (receivedPower scenarioPlane scenarioRadar * 1000) ≤ -10 := by
    rw [Real.logb_le_iff_le_rpow (by norm_num : (1:ℝ) < 10) hpos,
      show (-10:ℝ) = ((-10:ℤ):ℝ) by norm_num, Real.rpow_intCast,
      show (10:ℝ) ^ (-10:ℤ) = 1e-10 by norm_num]
    exact scenario_receivedPower_small
  rw [radarSNR, signalStrengthDbm, show scenarioRadar.sensitivity = -90 from rfl]
  linarith

lemma scenario_detProb :
    detectionProbabilityOfSNR (radarSNR scenarioPlane scenarioRadar) = 0 :=
  detProb_of_le_neg10 scenario_snr

/-- C8: for the concrete input `PlaneParameters{0.001, 0.95, stealth, 0,
(10,8,15)}` and `RadarParameters{10, 500, 100, -90}`, `calculateRadarReturn`
yields distance ≈ 19.72 (strictly between 19.72 and 19.73), effective RCS equal
to `0.001 × 0.001 × angularFactor(0) × 0.05` (a near-zero cross-section), and
`isDetected = false` — in both engine copies. -/
theorem concrete_stealth_scenario :
    19.72 < (calculateRadarReturn scenarioPlane scenarioRadar).distance ∧
    (calculateRadarReturn scenarioPlane scenarioRadar).distance < 19.73 ∧
    (calculateRadarReturn scenarioPlane scenarioRadar).effectiveRCS =
      0.001 * 0.001 * (1 + 50 * Real.sin 0 ^ 4) * 0.05 ∧
    (calculateRadarReturn scenarioPlane scenarioRadar).isDetected = false ∧
    (calculateRadarReturnSim scenarioPlane scenarioRadar).isDetected = false := by
  rw [calculateRadarReturn_inRange _ _ scenario_in_range,
    calculateRadarReturnSim_inRange _ _ scenario_in_range]
  refine ⟨?_, ?_, ?_, ?_, ?_⟩
  · show (19.72:ℝ) < radarDistance scenarioPlane
    rw [scenario_distance, show (19.72:ℝ) = |19.72| by rw [abs_of_pos]; norm_num]
    rw [Real.lt_sqrt (abs_nonneg _)]
    rw [abs_of_pos (by norm_num : (0:ℝ) < 19.72)]
    norm_num
  · show radarDistance scenarioPlane < (19.73:ℝ)
    rw [scenario_distance, Real.sqrt_lt' (by norm_num : (0:ℝ) < 19.73)]
    norm_num
  · show engineEffectiveRCS scenarioPlane = _
    rw [scenario_effectiveRCS]
    norm_num [Real.sin_zero]
  · show decide _ = false
    rw [scenario_detProb]
    exact decide_eq_false (by norm_num)
  · show decide _ = false
    rw [scenario_detProb]
    exact decide_eq_false (by norm_num)

end StealthPlane
